import Mathlib

/-!
Verification development for the Kern County government-meeting scraper.

The Python sources under `src/scraper/` are shallowly embedded below:
pure parsing and classification code becomes Lean functions, Python
exceptions become `Except`, Python dicts become association lists, and
the remote HTTP / AI endpoints become explicit function parameters
(`client : String → Except Unit String` maps a prompt to a response or a
raised error).  Dates mirror CPython's `datetime`: a naive datetime is a
proleptic-Gregorian ordinal day (`date.toordinal`) plus time-of-day
fields, compared lexicographically exactly as CPython compares naive
datetimes; an optional UTC-offset (in minutes) models aware datetimes,
and comparing an aware datetime with a naive one raises `TypeError`,
as in CPython.
-/

namespace KernGov

/-- A Python value stored in a meeting dict: the scraper only ever stores
strings and `None`. -/
inductive PyVal where
  | str (s : String)
  | pyNone
deriving Repr, DecidableEq

/-- A Python dict with string keys, as produced by the parsers. -/
abbrev Dict := List (String × PyVal)

/-- `d[k]` as a total lookup (`None` when the key is absent). -/
def lookupDict (d : Dict) (k : String) : Option PyVal :=
  (d.find? (fun kv => kv.1 == k)).map (fun kv => kv.2)

/-- Python exceptions distinguished by the embedding. -/
inductive PyErr where
  | keyError
  | valueError
  | typeError
deriving Repr, DecidableEq

/-- `d[k]`: raises `KeyError` when the key is absent. -/
def getItem (d : Dict) (k : String) : Except PyErr PyVal :=
  match lookupDict d k with
  | some v => .ok v
  | none => .error .keyError

/-- `d.get(k, default)`. -/
def getDefault (d : Dict) (k : String) (dflt : PyVal) : PyVal :=
  (lookupDict d k).getD dflt

/-- `str(v)` as used by f-string interpolation. -/
def pyStr : PyVal → String
  | .str s => s
  | .pyNone => "None"

/-! ### Python string helpers (`str.strip`, `str.replace`, `str.lower`) -/

/-- Whitespace recognised by Python's `str.strip()` (ASCII part). -/
def isPyWs (c : Char) : Bool :=
  c == ' ' || c == '\t' || c == '\n' || c == '\r' || c == '\x0b' || c == '\x0c'

/-- `s.strip()`. -/
def pyStrip (s : String) : String :=
  String.mk (((s.toList.dropWhile isPyWs).reverse.dropWhile isPyWs).reverse)

/-- Does `p` occur at the head of `cs`? -/
def leadsWith : List Char → List Char → Bool
  | [], _ => true
  | _ :: _, [] => false
  | p :: ps, c :: cs => p == c && leadsWith ps cs

/-- Worker for `pyReplaceChar`: replace every occurrence of `p`, left to
right, as Python's `str.replace` does. -/
def pyReplaceCharAux (p : Char) (repl : List Char) : List Char → List Char
  | [] => []
  | c :: cs =>
    if c == p then repl ++ pyReplaceCharAux p repl cs
    else c :: pyReplaceCharAux p repl cs

/-- `s.replace(p, repl)` for a one-character pattern (the scraper's only
use is `.replace('Z', '+00:00')`). -/
def pyReplaceChar (s : String) (p : Char) (repl : String) : String :=
  String.mk (pyReplaceCharAux p repl.toList s.toList)

/-- ASCII lower-casing of one character (`str.lower` on the characters
the scraper matches). -/
def pyLowerChar (c : Char) : Char :=
  if 'A' ≤ c && c ≤ 'Z' then Char.ofNat (c.toNat + 32) else c

/-- Does the already-lower-case `pat` occur inside `cs`? -/
def containsAux (pat : List Char) : List Char → Bool
  | [] => leadsWith pat []
  | c :: cs => leadsWith pat (c :: cs) || containsAux pat cs

/-- Case-insensitive substring test: `re.search(pat, s, re.I)` for a
plain-text lower-case pattern. -/
def containsCI (s pat : String) : Bool :=
  containsAux pat.toList (s.toList.map pyLowerChar)

/-- An ASCII decimal digit (what the scraper's regexes and date parsing
treat as a digit). -/
def isDig (c : Char) : Bool :=
  48 ≤ c.toNat && c.toNat ≤ 57

/-! ### The proleptic Gregorian calendar, mirroring CPython `datetime` -/

/-- CPython `_is_leap`. -/
def isLeap (y : Nat) : Bool :=
  y % 4 == 0 && (y % 100 != 0 || y % 400 == 0)

/-- CPython `_DAYS_BEFORE_MONTH` table (non-leap years). -/
def daysBeforeMonthTable (m : Nat) : Nat :=
  match m with
  | 1 => 0 | 2 => 31 | 3 => 59 | 4 => 90 | 5 => 120 | 6 => 151
  | 7 => 181 | 8 => 212 | 9 => 243 | 10 => 273 | 11 => 304 | _ => 334

/-- CPython `_days_before_month`. -/
def daysBeforeMonth (y m : Nat) : Nat :=
  daysBeforeMonthTable m + (if 2 < m && isLeap y then 1 else 0)

/-- Number of days of month `m` for a given leap flag. -/
def daysInMonthL (leap : Bool) (m : Nat) : Nat :=
  if m == 2 then (if leap then 29 else 28)
  else if m == 4 || m == 6 || m == 9 || m == 11 then 30
  else 31

/-- CPython `_days_in_month`. -/
def daysInMonth (y m : Nat) : Nat :=
  daysInMonthL (isLeap y) m

/-- CPython `_days_before_year`. -/
def daysBeforeYear (y : Nat) : Nat :=
  let py := y - 1
  py * 365 + py / 4 - py / 100 + py / 400

/-- CPython `_ymd2ord`: `date(y, m, d).toordinal()`, day 1 being 0001-01-01. -/
def toOrdinal (y m d : Nat) : Nat :=
  daysBeforeYear y + daysBeforeMonth y m + d

/-- Recover month and (1-based) day from a 0-based day-of-year. -/
def monthDayFromDoy (leap : Bool) (doy : Nat) : Nat × Nat :=
  let f := fun (st : (Nat × Nat) ⊕ Nat) (m : Nat) =>
    match st with
    | .inl md => .inl md
    | .inr rem =>
      if rem < daysInMonthL leap m then .inl (m, rem + 1)
      else .inr (rem - daysInMonthL leap m)
  match (List.range' 1 12).foldl f (.inr doy) with
  | .inl md => md
  | .inr _ => (12, 31)

/-- CPython `_ord2ymd`: inverse of `toOrdinal`. -/
def fromOrdinal (n : Nat) : Nat × Nat × Nat :=
  let n0 := n - 1
  let n400 := n0 / 146097
  let r400 := n0 % 146097
  let n100 := r400 / 36524
  let r100 := r400 % 36524
  let n4 := r100 / 1461
  let r4 := r100 % 1461
  let n1 := r4 / 365
  let r1 := r4 % 365
  let year := n400 * 400 + n100 * 100 + n4 * 4 + n1 + 1
  if n1 == 4 || n100 == 4 then
    (year - 1, 12, 31)
  else
    let md := monthDayFromDoy (isLeap year) r1
    (year, md.1, md.2)

/-- A naive `datetime`: ordinal day plus time of day, exactly the data
CPython compares lexicographically. -/
structure DateTime where
  ord : Int
  hour : Nat
  minute : Nat
  second : Nat
  usec : Nat
deriving Repr, DecidableEq

/-- Total microseconds of a naive datetime; naive datetimes compare by
this key exactly as CPython compares them field-lexicographically. -/
def dtKey (t : DateTime) : Int :=
  (((t.ord * 24 + t.hour) * 60 + t.minute) * 60 + t.second) * 1000000 + t.usec

/-- `a <= b` on naive datetimes. -/
def dtLe (a b : DateTime) : Bool :=
  dtKey a ≤ dtKey b

/-- Well-formedness: what CPython's `datetime` constructor enforces. -/
def DateTime.wf (t : DateTime) : Prop :=
  1 ≤ t.ord ∧ t.ord ≤ 3652059 ∧ t.hour ≤ 23 ∧ t.minute ≤ 59 ∧
    t.second ≤ 59 ∧ t.usec ≤ 999999

instance (t : DateTime) : Decidable t.wf := by
  unfold DateTime.wf
  infer_instance

/-- A possibly aware `datetime`: `offset` is the UTC offset in minutes
when a `tzinfo` is attached. -/
structure PyDateTime where
  naive : DateTime
  offset : Option Int
deriving Repr, DecidableEq

/-- The UTC instant of an aware datetime (microseconds). -/
def utcKey (p : PyDateTime) : Int :=
  dtKey p.naive - (match p.offset with
    | some o => o * 60 * 1000000
    | none => 0)

/-- `a > b` on datetimes: CPython raises `TypeError` when exactly one of
the two is aware. -/
def pyGt (a b : PyDateTime) : Except PyErr Bool :=
  match a.offset, b.offset with
  | some _, some _ => .ok (utcKey b < utcKey a)
  | none, none => .ok (dtKey b.naive < dtKey a.naive)
  | _, _ => .error .typeError

/-! ### `datetime.fromisoformat`, `datetime.strptime('%m/%d/%Y')`,
`datetime.isoformat` -/

/-- Read exactly `k` decimal digits, accumulating their value. -/
def readFixedNatAux : Nat → Nat → List Char → Option (Nat × List Char)
  | 0, acc, cs => some (acc, cs)
  | _ + 1, _, [] => none
  | k + 1, acc, c :: cs =>
    if isDig c then readFixedNatAux k (acc * 10 + (c.toNat - 48)) cs else none

/-- Read exactly `k` decimal digits. -/
def readFixedNat (k : Nat) (cs : List Char) : Option (Nat × List Char) :=
  readFixedNatAux k 0 cs

/-- Consume one expected character. -/
def expectChar (c : Char) : List Char → Option (List Char)
  | d :: cs => if d == c then some cs else none
  | [] => none

/-- The `HH[:MM[:SS[.fff[fff]]]]` part of an ISO time, as accepted by
CPython's `_parse_isoformat_time`. -/
def parseIsoTime (cs : List Char) : Option (Nat × Nat × Nat × Nat × List Char) := do
  let (h, cs) ← readFixedNat 2 cs
  match cs with
  | ':' :: cs1 => do
    let (mi, cs2) ← readFixedNat 2 cs1
    match cs2 with
    | ':' :: cs3 => do
      let (sec, cs4) ← readFixedNat 2 cs3
      match cs4 with
      | '.' :: cs5 =>
        (match readFixedNat 6 cs5 with
         | some (f6, cs6) => some (h, mi, sec, f6, cs6)
         | none => do
           let (f3, cs6) ← readFixedNat 3 cs5
           some (h, mi, sec, f3 * 1000, cs6))
      | _ => some (h, mi, sec, 0, cs4)
    | _ => some (h, mi, 0, 0, cs2)
  | _ => some (h, 0, 0, 0, cs)

/-- An optional trailing `±HH:MM` UTC offset (minutes). -/
def parseIsoOffset (cs : List Char) : Option (Option Int × List Char) :=
  match cs with
  | [] => some (none, [])
  | c :: cs1 =>
    if c == '+' || c == '-' then do
      let (oh, cs2) ← readFixedNat 2 cs1
      let cs3 ← expectChar ':' cs2
      let (om, cs4) ← readFixedNat 2 cs3
      if oh ≤ 23 && om ≤ 59 then
        let total : Int := oh * 60 + om
        some (some (if c == '-' then -total else total), cs4)
      else none
    else none

/-- `datetime.fromisoformat`: `YYYY-MM-DD[sHH[:MM[:SS[.fff[fff]]]][±HH:MM]]`
with any single separator character `s`, validated like the `datetime`
constructor; the result is aware exactly when an offset is present. -/
def fromisoformat (s : String) : Option PyDateTime := do
  let cs := s.toList
  let (y, cs) ← readFixedNat 4 cs
  let cs ← expectChar '-' cs
  let (m, cs) ← readFixedNat 2 cs
  let cs ← expectChar '-' cs
  let (d, cs) ← readFixedNat 2 cs
  if 1 ≤ y && 1 ≤ m && m ≤ 12 && 1 ≤ d && d ≤ daysInMonth y m then
    match cs with
    | [] => some ⟨⟨(toOrdinal y m d : Nat), 0, 0, 0, 0⟩, none⟩
    | _ :: cs1 => do
      let (h, mi, sec, us, cs2) ← parseIsoTime cs1
      if h ≤ 23 && mi ≤ 59 && sec ≤ 59 && us ≤ 999999 then
        let (off, cs3) ← parseIsoOffset cs2
        if cs3.isEmpty then
          some ⟨⟨(toOrdinal y m d : Nat), h, mi, sec, us⟩, off⟩
        else none
      else none
  else none

/-- One or two digits, greedily, as the `%m` and `%d` directives match. -/
def read12 (cs : List Char) : Option (Nat × List Char) :=
  match cs with
  | c1 :: c2 :: rest =>
    if isDig c1 then
      if isDig c2 then some ((c1.toNat - 48) * 10 + (c2.toNat - 48), rest)
      else some (c1.toNat - 48, c2 :: rest)
    else none
  | [c1] => if isDig c1 then some (c1.toNat - 48, []) else none
  | [] => none

/-- `datetime.strptime(s, '%m/%d/%Y')`: the whole string must match,
`%Y` takes exactly four digits, and the resulting date is validated. -/
def strptimeMDY (s : String) : Option DateTime := do
  let cs := s.toList
  let (m, cs) ← read12 cs
  let cs ← expectChar '/' cs
  let (d, cs) ← read12 cs
  let cs ← expectChar '/' cs
  let (y, cs) ← readFixedNat 4 cs
  if cs.isEmpty && 1 ≤ y && 1 ≤ m && m ≤ 12 && 1 ≤ d && d ≤ daysInMonth y m then
    some ⟨(toOrdinal y m d : Nat), 0, 0, 0, 0⟩
  else none

/-- The character for one decimal digit. -/
def dchar (k : Nat) : Char :=
  match k with
  | 0 => '0' | 1 => '1' | 2 => '2' | 3 => '3' | 4 => '4'
  | 5 => '5' | 6 => '6' | 7 => '7' | 8 => '8' | _ => '9'

/-- The decimal digit character of `n % 10`. -/
def digitChar (n : Nat) : Char :=
  dchar (n % 10)

/-- `%02d`. -/
def pad2 (n : Nat) : List Char := [digitChar (n / 10), digitChar n]

/-- `%04d`. -/
def pad4 (n : Nat) : List Char :=
  [digitChar (n / 1000), digitChar (n / 100), digitChar (n / 10), digitChar n]

/-- `%06d`. -/
def pad6 (n : Nat) : List Char :=
  [digitChar (n / 100000), digitChar (n / 10000), digitChar (n / 1000),
   digitChar (n / 100), digitChar (n / 10), digitChar n]

/-- `datetime.isoformat()`: `YYYY-MM-DDTHH:MM:SS[.ffffff]`, the
microseconds printed only when nonzero. -/
def isoformat (t : DateTime) : String :=
  let ymd := fromOrdinal t.ord.toNat
  String.mk (pad4 ymd.1 ++ '-' :: pad2 ymd.2.1 ++ '-' :: pad2 ymd.2.2 ++
    'T' :: pad2 t.hour ++ ':' :: pad2 t.minute ++ ':' :: pad2 t.second ++
    (if t.usec == 0 then [] else '.' :: pad6 t.usec))

/-- Shape check for an ISO-8601 timestamp `YYYY-MM-DDTHH:MM:SS[.ffffff]`,
on the character list. -/
def isIsoChars : List Char → Bool
  | [y1, y2, y3, y4, a, m1, m2, b, d1, d2, t, h1, h2, c, n1, n2, e, s1, s2] =>
    [y1, y2, y3, y4, m1, m2, d1, d2, h1, h2, n1, n2, s1, s2].all isDig &&
      a == '-' && b == '-' && t == 'T' && c == ':' && e == ':'
  | [y1, y2, y3, y4, a, m1, m2, b, d1, d2, t, h1, h2, c, n1, n2, e, s1, s2,
     p, f1, f2, f3, f4, f5, f6] =>
    [y1, y2, y3, y4, m1, m2, d1, d2, h1, h2, n1, n2, s1, s2,
     f1, f2, f3, f4, f5, f6].all isDig &&
      a == '-' && b == '-' && t == 'T' && c == ':' && e == ':' && p == '.'
  | _ => false

/-- Shape check for an ISO-8601 timestamp `YYYY-MM-DDTHH:MM:SS[.ffffff]`. -/
def isIsoTimestamp (s : String) : Bool :=
  isIsoChars s.toList

/-! ### The date regular expression of the Granicus parser

`re.search` with pattern "one or two digits, slash, one or two digits,
slash, four digits": at a given start position the match is forced by the
input (a second digit cannot also be a slash), so a deterministic scan is
exactly the search. -/

/-- Four digits ahead? -/
def fourDigits : List Char → Bool
  | a :: b :: c :: d :: _ => isDig a && isDig b && isDig c && isDig d
  | _ => false

/-- One or two digits followed by a slash; returns what follows the slash. -/
def digitsThenSlash : List Char → Option (List Char)
  | c1 :: c2 :: c3 :: rest =>
    if isDig c1 && c2 == '/' then some (c3 :: rest)
    else if isDig c1 && isDig c2 && c3 == '/' then some rest
    else none
  | [c1, c2] => if isDig c1 && c2 == '/' then some [] else none
  | _ => none

/-- Does the date pattern match at this position? -/
def dateAt (cs : List Char) : Bool :=
  match digitsThenSlash cs with
  | some cs1 =>
    match digitsThenSlash cs1 with
    | some cs2 => fourDigits cs2
    | none => false
  | none => false

/-- Scan of all start positions. -/
def dateSearchAux : List Char → Bool
  | [] => false
  | c :: rest => dateAt (c :: rest) || dateSearchAux rest

/-- Does `re.search` find the Granicus date pattern in `s`? -/
def dateSearch (s : String) : Bool := dateSearchAux s.toList

/-! ### Python's `json.loads`, as used by the theme extractor -/

/-- JSON values as returned by Python's `json.loads`; numbers keep their
source lexeme (the scraper never consumes a numeric value). -/
inductive JsonVal where
  | jnull
  | jbool (b : Bool)
  | jnum (lexeme : String)
  | jstr (s : String)
  | jarr (elems : List JsonVal)
  | jobj (fields : List (String × JsonVal))

/-- JSON insignificant whitespace. -/
def jsonSkipWs : List Char → List Char
  | c :: cs =>
    if c == ' ' || c == '\t' || c == '\n' || c == '\r' then jsonSkipWs cs else c :: cs
  | [] => []

/-- Hexadecimal digit. -/
def isHexDigit (c : Char) : Bool :=
  isDig c || ('a' ≤ c && c ≤ 'f') || ('A' ≤ c && c ≤ 'F')

/-- Body of a JSON string after its opening quote.  Escape sequences are
validated as `json.loads` does; escaped control characters and `\u`
sequences are decoded approximately (as a space), which no claim in this
development depends on. -/
def jsonStrAux : Nat → List Char → Option (List Char × List Char)
  | 0, _ => none
  | _ + 1, [] => none
  | fuel + 1, c :: cs =>
    if c == '"' then some ([], cs)
    else if c == '\\' then
      match cs with
      | e :: cs2 =>
        if e == '"' || e == '\\' || e == '/' then
          (jsonStrAux fuel cs2).map (fun r => (e :: r.1, r.2))
        else if e == 'b' || e == 'f' || e == 'n' || e == 'r' || e == 't' then
          (jsonStrAux fuel cs2).map (fun r => (' ' :: r.1, r.2))
        else if e == 'u' then
          match cs2 with
          | h1 :: h2 :: h3 :: h4 :: cs3 =>
            if isHexDigit h1 && isHexDigit h2 && isHexDigit h3 && isHexDigit h4 then
              (jsonStrAux fuel cs3).map (fun r => (' ' :: r.1, r.2))
            else none
          | _ => none
        else none
      | [] => none
    else if 32 ≤ c.toNat then (jsonStrAux fuel cs).map (fun r => (c :: r.1, r.2))
    else none

/-- Longest digit run. -/
def takeDigits (cs : List Char) : List Char × List Char :=
  (cs.takeWhile isDig, cs.dropWhile isDig)

/-- JSON integer part: `0` or a nonzero digit followed by digits. -/
def jsonIntPart : List Char → Option (List Char × List Char)
  | c :: rest =>
    if c == '0' then some ([c], rest)
    else if isDig c then
      let t := takeDigits rest
      some (c :: t.1, t.2)
    else none
  | [] => none

/-- JSON optional fraction part. -/
def jsonFrac : List Char → Option (List Char × List Char)
  | '.' :: rest =>
    let t := takeDigits rest
    if t.1.isEmpty then none else some ('.' :: t.1, t.2)
  | cs => some ([], cs)

/-- JSON optional exponent part. -/
def jsonExp : List Char → Option (List Char × List Char)
  | c :: rest =>
    if c == 'e' || c == 'E' then
      let sr : List Char × List Char :=
        match rest with
        | s :: r2 => if s == '+' || s == '-' then ([s], r2) else ([], s :: r2)
        | [] => ([], [])
      let t := takeDigits sr.2
      if t.1.isEmpty then none else some (c :: sr.1 ++ t.1, t.2)
    else some ([], c :: rest)
  | [] => some ([], [])

/-- A JSON number; returns its lexeme. -/
def jsonNum (cs : List Char) : Option (List Char × List Char) := do
  let sr : List Char × List Char :=
    match cs with
    | '-' :: rest => (['-'], rest)
    | _ => ([], cs)
  let (ip, cs2) ← jsonIntPart sr.2
  let (fp, cs3) ← jsonFrac cs2
  let (ep, cs4) ← jsonExp cs3
  some (sr.1 ++ ip ++ fp ++ ep, cs4)

mutual

/-- A JSON value with leading whitespace, fuel-bounded. -/
def parseJsonVal : Nat → List Char → Option (JsonVal × List Char)
  | 0, _ => none
  | fuel + 1, cs =>
    match jsonSkipWs cs with
    | [] => none
    | c :: rest =>
      if c == 'n' then
        if leadsWith ['u', 'l', 'l'] rest then some (.jnull, rest.drop 3) else none
      else if c == 't' then
        if leadsWith ['r', 'u', 'e'] rest then some (.jbool true, rest.drop 3) else none
      else if c == 'f' then
        if leadsWith ['a', 'l', 's', 'e'] rest then some (.jbool false, rest.drop 4) else none
      else if c == '"' then
        (jsonStrAux (rest.length + 1) rest).map (fun r => (.jstr (String.mk r.1), r.2))
      else if c == '[' then
        match jsonSkipWs rest with
        | ']' :: rest2 => some (.jarr [], rest2)
        | _ => (parseJsonElems fuel rest).map (fun r => (.jarr r.1, r.2))
      else if c == '{' then
        match jsonSkipWs rest with
        | '}' :: rest2 => some (.jobj [], rest2)
        | _ => (parseJsonMembers fuel rest).map (fun r => (.jobj r.1, r.2))
      else
        (jsonNum (c :: rest)).map (fun r => (.jnum (String.mk r.1), r.2))

/-- Comma-separated JSON array elements up to the closing bracket. -/
def parseJsonElems : Nat → List Char → Option (List JsonVal × List Char)
  | 0, _ => none
  | fuel + 1, cs => do
    let (v, cs1) ← parseJsonVal fuel cs
    match jsonSkipWs cs1 with
    | ',' :: cs2 => (parseJsonElems fuel cs2).map (fun r => (v :: r.1, r.2))
    | ']' :: cs2 => some ([v], cs2)
    | _ => none

/-- Comma-separated JSON object members up to the closing brace. -/
def parseJsonMembers : Nat → List Char → Option (List (String × JsonVal) × List Char)
  | 0, _ => none
  | fuel + 1, cs =>
    match jsonSkipWs cs with
    | '"' :: cs1 => do
      let (k, cs2) ← jsonStrAux (cs1.length + 1) cs1
      match jsonSkipWs cs2 with
      | ':' :: cs3 => do
        let (v, cs4) ← parseJsonVal fuel cs3
        match jsonSkipWs cs4 with
        | ',' :: cs5 =>
          (parseJsonMembers fuel cs5).map (fun r => ((String.mk k, v) :: r.1, r.2))
        | '}' :: cs5 => some ([(String.mk k, v)], cs5)
        | _ => none
      | _ => none
    | _ => none

end

/-- Python's `json.loads`: parse one JSON document, demanding that only
whitespace remains. -/
def jsonLoadsPy (s : String) : Option JsonVal := do
  let cs := s.toList
  let (v, rest) ← parseJsonVal (2 * cs.length + 2) cs
  if (jsonSkipWs rest).isEmpty then some v else none

/-! ### `kern_scraper.py`: `KernCountyScraper` -/

/-- One entry of `KernCountyScraper.sources`. -/
structure SourceConfig where
  base_url : String
  meetings_path : String
  name : String

/-- The hardcoded `self.sources` mapping. -/
def sources : List (String × SourceConfig) :=
  [("county_supervisors",
    ⟨"https://kernco.granicus.com", "/ViewPublished.php?view_id=2",
     "Kern County Board of Supervisors"⟩),
   ("bakersfield_council",
    ⟨"https://bakersfield.legistar.com", "/Calendar.aspx",
     "Bakersfield City Council"⟩),
   ("planning_commission",
    ⟨"https://kernco.granicus.com", "/ViewPublished.php?view_id=3",
     "Kern County Planning Commission"⟩)]

/-- A candidate Granicus meeting element (a `tr`/`div` whose class matched
"meeting|agenda"): its descendant text nodes in document order, the
`href` attributes of its descendant links in document order, and its
serialized markup `str(element)`. -/
structure GranicusElement where
  texts : List String
  hrefs : List String
  markup : String

/-- An anchor matched by the Legistar scraper: `href` attribute and
visible text (`get_text()`). -/
structure LegistarLink where
  href : String
  text : String

/-- `KernCountyScraper._parse_granicus_meeting`: find the first text node
matching the date pattern, `strptime` its stripped whole text, filter by
the inclusive week window, and build the record; any failure skips the
element (`None`). -/
def parse_granicus_meeting (element : GranicusElement) (config : SourceConfig)
    (week_start week_end : DateTime) : Option Dict :=
  match element.texts.find? dateSearch with
  | none => none
  | some date_text =>
    match strptimeMDY (pyStrip date_text) with
    | none => none
    | some meeting_date =>
      if dtLe week_start meeting_date && dtLe meeting_date week_end then
        let agenda_url :=
          match element.hrefs.find? (fun h => containsCI h "agenda" || containsCI h "pdf") with
          | some h => PyVal.str h
          | none => PyVal.pyNone
        some [("agency", PyVal.str config.name),
              ("date", PyVal.str (isoformat meeting_date)),
              ("type", PyVal.str "Regular Meeting"),
              ("agenda_url", agenda_url),
              ("raw_content", PyVal.str element.markup),
              ("source", PyVal.str "granicus")]
      else none

/-- `KernCountyScraper._parse_legistar_meeting`: the record is built from
the link alone; `date` is `datetime.now().isoformat()` and the week
window parameters are never consulted. -/
def parse_legistar_meeting (element : LegistarLink) (config : SourceConfig)
    (_week_start _week_end : DateTime) (now : DateTime) : Option Dict :=
  some [("agency", PyVal.str config.name),
        ("date", PyVal.str (isoformat now)),
        ("type", PyVal.str "Regular Meeting"),
        ("agenda_url", PyVal.str (config.base_url ++ element.href)),
        ("title", PyVal.str (pyStrip element.text)),
        ("source", PyVal.str "legistar")]

/-- `KernCountyScraper.scrape_weekly_meetings`: each configured source's
fetch+parse outcome is either a record list or a raised exception; an
exception is caught and the loop continues with the next source. -/
def scrape_weekly_meetings : List (Except PyErr (List Dict)) → List Dict
  | [] => []
  | .ok meetings :: rest => meetings ++ scrape_weekly_meetings rest
  | .error _ :: rest => scrape_weekly_meetings rest

/-! ### `main.py`: the week window -/

/-- `datetime.weekday()`: Monday is 0; ordinal 1 (0001-01-01) is a Monday. -/
def pyWeekday (t : DateTime) : Int :=
  (t.ord - 1) % 7

/-- `week_start = today - timedelta(days=today.weekday())`: subtracting a
day count leaves the time of day untouched. -/
def week_start (today : DateTime) : DateTime :=
  { today with ord := today.ord - pyWeekday today }

/-- `week_end = week_start + timedelta(days=6)`. -/
def week_end (today : DateTime) : DateTime :=
  { week_start today with ord := (week_start today).ord + 6 }

/-! ### `ai_processor.py`: `AIProcessor`

The OpenAI client is a parameter `client : String → Except Unit String`
mapping the prompt of a chat-completion call to the stripped-to-be
response content, or to a raised remote error. -/

/-- The fixed prompt of `_summarize_agenda`. -/
def agendaPrompt (agency date raw : String) : String :=
  "\n        Summarize this government meeting agenda in a conversational, podcast-friendly way:\n        \n        Agency: "
    ++ agency ++ "\n        Date: " ++ date ++ "\n        Raw content: " ++ raw
    ++ "\n        \n        Focus on:\n        - What decisions will be made\n        - How they affect local residents\n        - Why people should care\n        - Keep it under 100 words\n        - Use everyday language\n        "

/-- The fixed prompt of `_summarize_minutes`. -/
def minutesPrompt (agency date raw : String) : String :=
  "\n        Summarize what happened in this government meeting in a podcast-friendly way:\n        \n        Agency: "
    ++ agency ++ "\n        Date: " ++ date ++ "\n        Content: " ++ raw
    ++ "\n        \n        Focus on:\n        - What decisions were made\n        - Key votes and outcomes\n        - Impact on residents\n        - Keep it under 100 words\n        - Use past tense\n        "

/-- The fixed prompt of `_find_common_themes` around the joined content. -/
def themesPrompt (all_content : String) : String :=
  "\n        Analyze these government meetings and identify 2-3 major themes that connect across multiple agencies:\n        \n        "
    ++ all_content
    ++ "\n        \n        For each theme, provide:\n        - Theme name\n        - Brief description\n        - Which meetings/agencies are involved\n        - Why it matters to residents\n        \n        Format as JSON array.\n        "

/-- `AIProcessor._summarize_agenda`: the prompt interpolates
`meeting['agency']` and `meeting['date']` before the guarded remote call,
so a missing key raises `KeyError`; a raised remote call is replaced by
the fixed fallback sentence. -/
def summarize_agenda (client : String → Except Unit String) (meeting : Dict) :
    Except PyErr String := do
  let agency ← getItem meeting "agency"
  let date ← getItem meeting "date"
  let raw := getDefault meeting "raw_content" (.str "No content available")
  let prompt := agendaPrompt (pyStr agency) (pyStr date) (pyStr raw)
  match client prompt with
  | .ok content => pure (pyStrip content)
  | .error _ => pure "Summary unavailable - please check the agenda directly."

/-- `AIProcessor._summarize_minutes`: as `_summarize_agenda`, with its own
prompt and fallback sentence. -/
def summarize_minutes (client : String → Except Unit String) (meeting : Dict) :
    Except PyErr String := do
  let agency ← getItem meeting "agency"
  let date ← getItem meeting "date"
  let raw := getDefault meeting "raw_content" (.str "No content available")
  let prompt := minutesPrompt (pyStr agency) (pyStr date) (pyStr raw)
  match client prompt with
  | .ok content => pure (pyStrip content)
  | .error _ => pure "Summary unavailable."

/-- `AIProcessor._process_upcoming_meetings`: each meeting is summarized
and re-packaged inside a `try`; a raising meeting is logged and dropped. -/
def process_upcoming_meetings (client : String → Except Unit String)
    (meetings : List Dict) : List Dict :=
  meetings.filterMap (fun m =>
    (do
      let summary ← summarize_agenda client m
      let agency ← getItem m "agency"
      let date ← getItem m "date"
      pure [("agency", agency), ("date", date),
            ("type", getDefault m "type" (.str "Regular Meeting")),
            ("summary", PyVal.str summary),
            ("agenda_url", getDefault m "agenda_url" .pyNone)]
      : Except PyErr Dict).toOption)

/-- `AIProcessor._process_recent_meetings`: as the upcoming case, without
the `agenda_url` field. -/
def process_recent_meetings (client : String → Except Unit String)
    (meetings : List Dict) : List Dict :=
  meetings.filterMap (fun m =>
    (do
      let summary ← summarize_minutes client m
      let agency ← getItem m "agency"
      let date ← getItem m "date"
      pure [("agency", agency), ("date", date),
            ("type", getDefault m "type" (.str "Regular Meeting")),
            ("summary", PyVal.str summary)]
      : Except PyErr Dict).toOption)

/-- `AIProcessor._is_upcoming`: parse `meeting['date']` (with `'Z'`
replaced by `'+00:00'`) and compare with `datetime.now()`; the bare
`except` turns every raised exception — including the `TypeError` from
comparing an aware datetime with the naive `now` — into `False`. -/
def is_upcoming (meeting : Dict) (now : DateTime) : Bool :=
  match lookupDict meeting "date" with
  | some (.str s) =>
    match fromisoformat (pyReplaceChar s 'Z' "+00:00") with
    | some pdt =>
      match pyGt pdt ⟨now, none⟩ with
      | .ok b => b
      | .error _ => false
    | none => false
  | some .pyNone => false
  | none => false

/-- `AIProcessor._find_common_themes`: the content join reads
`m['agency']` unguarded, so a missing key raises `KeyError`; inside the
`try`, a raised remote call yields `[]` and a response that is not valid
JSON is wrapped into one synthetic theme. -/
def find_common_themes (client : String → Except Unit String)
    (meetings_data : List Dict) : Except PyErr JsonVal := do
  let parts ← meetings_data.mapM (fun m => do
    let agency ← getItem m "agency"
    pure (pyStr agency ++ ": " ++ pyStr (getDefault m "raw_content" (.str ""))))
  let all_content := String.intercalate "\n\n" parts
  let prompt := themesPrompt all_content
  match client prompt with
  | .error _ => pure (JsonVal.jarr [])
  | .ok response =>
    let content := pyStrip response
    match jsonLoadsPy content with
    | some v => pure v
    | none =>
      pure (JsonVal.jarr [JsonVal.jobj
        [("theme", .jstr "Multi-Agency Coordination"), ("description", .jstr content)]])

/-- The dict returned by `AIProcessor.process_meetings`. -/
structure Bundle where
  upcoming_meetings : List Dict
  recent_minutes : List Dict
  themes : JsonVal
  total_meetings : Nat

/-- `AIProcessor.process_meetings`: split by `_is_upcoming`, process both
halves (each absorbing per-meeting failures), then extract themes — whose
unguarded content join may raise. -/
def process_meetings (client : String → Except Unit String)
    (meetings_data : List Dict) (now : DateTime) : Except PyErr Bundle := do
  let upcoming := meetings_data.filter (fun m => is_upcoming m now)
  let recent := meetings_data.filter (fun m => !is_upcoming m now)
  let processed_upcoming := process_upcoming_meetings client upcoming
  let processed_recent := process_recent_meetings client recent
  let themes ← find_common_themes client meetings_data
  pure { upcoming_meetings := processed_upcoming,
         recent_minutes := processed_recent,
         themes := themes,
         total_meetings := meetings_data.length }

/-! ## Supporting lemmas -/

theorem dchar_isDig : ∀ k, k < 10 → isDig (dchar k) = true := by decide

theorem digitChar_isDig (n : Nat) : isDig (digitChar n) = true :=
  dchar_isDig (n % 10) (Nat.mod_lt _ (by omega))

set_option maxRecDepth 8192 in
theorem monthDayFromDoy_bounds (leap : Bool) :
    ∀ doy, doy < 365 →
      1 ≤ (monthDayFromDoy leap doy).1 ∧ (monthDayFromDoy leap doy).1 ≤ 12 ∧
      1 ≤ (monthDayFromDoy leap doy).2 ∧ (monthDayFromDoy leap doy).2 ≤ 31 := by
  cases leap <;> decide

theorem fromOrdinal_bounds (n : Nat) (h1 : 1 ≤ n) (h2 : n ≤ 3652059) :
    1 ≤ (fromOrdinal n).1 ∧ (fromOrdinal n).1 ≤ 9999 ∧
    1 ≤ (fromOrdinal n).2.1 ∧ (fromOrdinal n).2.1 ≤ 12 ∧
    1 ≤ (fromOrdinal n).2.2 ∧ (fromOrdinal n).2.2 ≤ 31 := by
  simp only [fromOrdinal]
  split
  · rename_i hcond
    simp only [Bool.or_eq_true, beq_iff_eq] at hcond
    dsimp only
    refine ⟨by omega, by omega, by omega, by omega, by omega, by omega⟩
  · rename_i hcond
    simp only [Bool.or_eq_true, beq_iff_eq] at hcond
    push_neg at hcond
    dsimp only
    have hdoy : (n - 1) % 146097 % 36524 % 1461 % 365 < 365 := Nat.mod_lt _ (by omega)
    have hmd := monthDayFromDoy_bounds
      (isLeap ((n - 1) / 146097 * 400 + (n - 1) % 146097 / 36524 * 100 +
        (n - 1) % 146097 % 36524 / 1461 * 4 + (n - 1) % 146097 % 36524 % 1461 / 365 + 1))
      ((n - 1) % 146097 % 36524 % 1461 % 365) hdoy
    exact ⟨by omega, by omega, hmd.1, hmd.2.1, hmd.2.2.1, hmd.2.2.2⟩

theorem isLeap_mod4 (y : Nat) (h : isLeap y = true) : y % 4 = 0 := by
  simp only [isLeap, Bool.and_eq_true, beq_iff_eq] at h
  exact h.1

theorem daysInMonthL_le (leap : Bool) (m : Nat) : daysInMonthL leap m ≤ 31 := by
  unfold daysInMonthL
  split_ifs <;> omega

theorem daysBeforeMonth_add_le (leap : Bool) :
    ∀ m, m < 13 → ∀ d, d < 32 → d ≤ daysInMonthL leap m →
      daysBeforeMonthTable m + (if 2 < m && leap then 1 else 0) + d ≤
        (if leap then 366 else 365) := by
  cases leap <;> decide

theorem toOrdinal_bounds (y m d : Nat) (hy1 : 1 ≤ y) (hy2 : y ≤ 9999)
    (hm1 : 1 ≤ m) (hm2 : m ≤ 12) (hd1 : 1 ≤ d) (hd2 : d ≤ daysInMonth y m) :
    1 ≤ toOrdinal y m d ∧ toOrdinal y m d ≤ 3652059 := by
  unfold daysInMonth at hd2
  have hd31 : d ≤ 31 := le_trans hd2 (daysInMonthL_le _ _)
  have hbm := daysBeforeMonth_add_le (isLeap y) m (by omega) d (by omega) hd2
  unfold toOrdinal daysBeforeMonth daysBeforeYear
  constructor
  · omega
  · rcases Bool.eq_false_or_eq_true (isLeap y) with hL | hL <;> rw [hL] at hbm ⊢ <;>
      simp only [Bool.and_false, Bool.and_true, if_false, if_true,
        Bool.false_eq_true, if_neg, reduceIte] at hbm ⊢ <;>
      [(have h4 := isLeap_mod4 y hL; omega); omega]

theorem readFixedNatAux_lt :
    ∀ (k acc : Nat) (cs : List Char) (v : Nat) (rest : List Char),
      readFixedNatAux k acc cs = some (v, rest) → v < (acc + 1) * 10 ^ k := by
  intro k
  induction k with
  | zero =>
    intro acc cs v rest h
    simp only [readFixedNatAux, Option.some_inj, Prod.mk.injEq] at h
    omega
  | succ k ih =>
    intro acc cs v rest h
    cases cs with
    | nil => simp [readFixedNatAux] at h
    | cons c cs' =>
      simp only [readFixedNatAux] at h
      split at h
      · rename_i hdig
        simp only [isDig, Bool.and_eq_true, decide_eq_true_eq] at hdig
        calc v < (acc * 10 + (c.toNat - 48) + 1) * 10 ^ k := ih _ _ _ _ h
          _ ≤ ((acc + 1) * 10) * 10 ^ k := Nat.mul_le_mul_right _ (by omega)
          _ = (acc + 1) * 10 ^ (k + 1) := by ring
      · exact absurd h (by simp)

theorem readFixedNat_le_9999 (cs : List Char) (v : Nat) (rest : List Char)
    (h : readFixedNat 4 cs = some (v, rest)) : v ≤ 9999 := by
  have := readFixedNatAux_lt 4 0 cs v rest h
  omega

theorem strptimeMDY_wf (s : String) (dt : DateTime)
    (h : strptimeMDY s = some dt) : dt.wf := by
  unfold strptimeMDY at h
  simp only [Option.bind_eq_bind, Option.bind_eq_some] at h
  obtain ⟨⟨m, cs1⟩, h1, h⟩ := h
  obtain ⟨cs2, h2, h⟩ := h
  obtain ⟨⟨d, cs3⟩, h3, h⟩ := h
  obtain ⟨cs4, h4, h⟩ := h
  obtain ⟨⟨y, cs5⟩, h5, h⟩ := h
  simp only at h
  split at h
  · rename_i hcond
    simp only [Bool.and_eq_true, decide_eq_true_eq] at hcond
    obtain ⟨⟨⟨⟨⟨-, hy1⟩, hm1⟩, hm2⟩, hd1⟩, hd2⟩ := hcond
    have hy2 : y ≤ 9999 := readFixedNat_le_9999 _ _ _ h5
    have hb := toOrdinal_bounds y m d hy1 hy2 hm1 hm2 hd1 hd2
    cases h
    unfold DateTime.wf
    dsimp only
    omega
  · exact absurd h (by simp)

theorem isoformat_iso (t : DateTime) (hwf : t.wf) :
    isIsoTimestamp (isoformat t) = true := by
  obtain ⟨h1, h2, h3, h4, h5, h6⟩ := hwf
  have hb := fromOrdinal_bounds t.ord.toNat (by omega) (by omega)
  unfold isoformat isIsoTimestamp
  rcases Bool.eq_false_or_eq_true (t.usec == 0) with hus | hus <;>
    simp only [hus, if_false, if_true] <;>
    simp [String.toList, isIsoChars, pad4, pad2, pad6, digitChar_isDig]

theorem mapM_except_ok {α β : Type} (f : α → Except PyErr β) :
    ∀ xs : List α, (∀ x ∈ xs, ∃ v, f x = .ok v) → ∃ vs, xs.mapM f = .ok vs := by
  intro xs
  induction xs with
  | nil => intro _; exact ⟨[], by rw [List.mapM_nil]; rfl⟩
  | cons x xs ih =>
    intro h
    obtain ⟨v, hv⟩ := h x (List.mem_cons_self x xs)
    obtain ⟨vs, hvs⟩ := ih (fun y hy => h y (List.mem_cons_of_mem x hy))
    refine ⟨v :: vs, ?_⟩
    rw [List.mapM_cons, hv, hvs]
    rfl

theorem ok_bind {ε α β : Type} (v : α) (f : α → Except ε β) :
    ((Except.ok v : Except ε α) >>= f) = f v := rfl

theorem find_common_themes_cases (client : String → Except Unit String) (ms : List Dict)
    (hkeys : ∀ m ∈ ms, (lookupDict m "agency").isSome) :
    ((∀ p, client p = .error ()) → find_common_themes client ms = .ok (.jarr []))
    ∧ (∀ resp, (∀ p, client p = .ok resp) → jsonLoadsPy (pyStrip resp) = none →
        find_common_themes client ms =
          .ok (.jarr [.jobj [("theme", .jstr "Multi-Agency Coordination"),
                             ("description", .jstr (pyStrip resp))]]))
    ∧ (∀ resp v, (∀ p, client p = .ok resp) → jsonLoadsPy (pyStrip resp) = some v →
        find_common_themes client ms = .ok v)
    ∧ (∃ v, find_common_themes client ms = .ok v) := by
  have hin : ∀ m ∈ ms, ∃ v,
      (do
        let agency ← getItem m "agency"
        pure (pyStr agency ++ ": " ++ pyStr (getDefault m "raw_content" (.str "")))
        : Except PyErr String) = .ok v := by
    intro m hm
    obtain ⟨v, hv⟩ := Option.isSome_iff_exists.mp (hkeys m hm)
    refine ⟨pyStr v ++ ": " ++ pyStr (getDefault m "raw_content" (.str "")), ?_⟩
    unfold getItem
    rw [hv]
    rfl
  obtain ⟨parts, hparts⟩ := mapM_except_ok _ ms hin
  unfold find_common_themes
  rw [hparts]
  simp only [ok_bind]
  refine ⟨?_, ?_, ?_, ?_⟩
  · intro hc
    simp only [hc]
    rfl
  · intro resp hc hjson
    simp only [hc, hjson]
    rfl
  · intro resp v hc hjson
    simp only [hc, hjson]
    rfl
  · rcases hcl : client (themesPrompt (String.intercalate "\n\n" parts)) with e | r <;>
      simp only [hcl]
    · exact ⟨_, rfl⟩
    · rcases hj : jsonLoadsPy (pyStrip r) with _ | v <;> simp only [hj] <;> exact ⟨_, rfl⟩

theorem process_meetings_ok (client : String → Except Unit String)
    (ms : List Dict) (now : DateTime)
    (hkeys : ∀ m ∈ ms, (lookupDict m "agency").isSome) :
    ∃ b, process_meetings client ms now = .ok b
      ∧ b.upcoming_meetings =
          process_upcoming_meetings client (ms.filter (fun m => is_upcoming m now))
      ∧ b.recent_minutes =
          process_recent_meetings client (ms.filter (fun m => !is_upcoming m now))
      ∧ find_common_themes client ms = .ok b.themes
      ∧ b.total_meetings = ms.length := by
  obtain ⟨v, hv⟩ := (find_common_themes_cases client ms hkeys).2.2.2
  refine ⟨⟨_, _, v, ms.length⟩, ?_, rfl, rfl, by rw [hv], rfl⟩
  unfold process_meetings
  rw [hv]
  rfl

/-! ## The claims -/

/-- C1 (code_bug): classification is claimed to put a record in
`upcoming_meetings` iff its date parses (accepting a trailing 'Z' UTC
marker) and is strictly in the future.  The code's `replace('Z',
'+00:00')` shows the intent to accept such dates, but the parsed value is
then offset-aware and CPython raises `TypeError` when comparing it with
the naive `datetime.now()`; the bare `except` turns that into `False`.
Concretely: the date `"2031-01-01T00:00:00Z"` parses to an aware datetime
whose UTC instant is strictly after `now` (2026-10-12 12:00), yet
`_is_upcoming` returns `False` and `process_meetings` files the record
under `recent_minutes`, contradicting the claim. -/
theorem claim_C1_zdate_misclassified :
    pyReplaceChar "2031-01-01T00:00:00Z" 'Z' "+00:00" = "2031-01-01T00:00:00+00:00"
    ∧ fromisoformat "2031-01-01T00:00:00+00:00" =
        some ⟨⟨741443, 0, 0, 0, 0⟩, some 0⟩
    ∧ dtKey ⟨739901, 12, 0, 0, 0⟩ < utcKey ⟨⟨741443, 0, 0, 0, 0⟩, some 0⟩
    ∧ is_upcoming
        [("agency", .str "Test Agency"), ("date", .str "2031-01-01T00:00:00Z")]
        ⟨739901, 12, 0, 0, 0⟩ = false
    ∧ process_meetings (fun _ => .error ())
        [[("agency", .str "Test Agency"), ("date", .str "2031-01-01T00:00:00Z")]]
        ⟨739901, 12, 0, 0, 0⟩ =
      .ok ⟨[],
           [[("agency", .str "Test Agency"), ("date", .str "2031-01-01T00:00:00Z"),
             ("type", .str "Regular Meeting"), ("summary", .str "Summary unavailable.")]],
           .jarr [], 1⟩ :=
  ⟨rfl, rfl, by decide, rfl, rfl⟩

/-- C2 (counterexample): the claim says every Granicus element whose text
contains `"3/15/2025"` yields exactly one record.  But `element.find(text=...)`
returns the whole matching text node and `strptime` demands that the whole
stripped node parse as `%m/%d/%Y`: a node `"Meeting: 3/15/2025"` contains
the date string, matches the search pattern, and is then skipped because
`strptime` raises on the surrounding text. -/
theorem claim_C2_counterexample :
    containsAux "3/15/2025".toList "Meeting: 3/15/2025".toList = true
    ∧ parse_granicus_meeting ⟨["Meeting: 3/15/2025"], [], "<tr>x</tr>"⟩
        ⟨"https://kernco.granicus.com", "/ViewPublished.php?view_id=2",
         "Kern County Board of Supervisors"⟩
        ⟨739320, 0, 0, 0, 0⟩ ⟨739326, 0, 0, 0, 0⟩ = none :=
  ⟨by decide, rfl⟩

/-- C2 (amended): for every Granicus element whose first date-pattern
matching text node is, after stripping, exactly `"3/15/2025"`, parsing
with the inclusive window [2025-03-10, 2025-03-16] yields exactly one
record with date `2025-03-15T00:00:00`; a parsed date outside any
inclusive window yields no record; and an element with no matching text
node, or whose matched node's whole stripped text fails month/day/year
parsing, is skipped without error. -/
theorem claim_C2_amended :
    (∀ (el : GranicusElement) (cfg : SourceConfig) (s : String),
      el.texts.find? dateSearch = some s → pyStrip s = "3/15/2025" →
      ∃ r, parse_granicus_meeting el cfg ⟨739320, 0, 0, 0, 0⟩ ⟨739326, 0, 0, 0, 0⟩ =
          some r ∧
        lookupDict r "date" = some (.str "2025-03-15T00:00:00"))
    ∧ (∀ (el : GranicusElement) (cfg : SourceConfig) (ws we : DateTime)
        (s : String) (dt : DateTime),
        el.texts.find? dateSearch = some s → strptimeMDY (pyStrip s) = some dt →
        (dtLe ws dt && dtLe dt we) = false →
        parse_granicus_meeting el cfg ws we = none)
    ∧ (∀ (el : GranicusElement) (cfg : SourceConfig) (ws we : DateTime),
        el.texts.find? dateSearch = none → parse_granicus_meeting el cfg ws we = none)
    ∧ (∀ (el : GranicusElement) (cfg : SourceConfig) (ws we : DateTime) (s : String),
        el.texts.find? dateSearch = some s → strptimeMDY (pyStrip s) = none →
        parse_granicus_meeting el cfg ws we = none) := by
  refine ⟨?_, ?_, ?_, ?_⟩
  · intro el cfg s hfind hstrip
    unfold parse_granicus_meeting
    simp only [hfind, hstrip]
    exact ⟨_, rfl, rfl⟩
  · intro el cfg ws we s dt hfind hstrp hwin
    unfold parse_granicus_meeting
    simp only [hfind, hstrp]
    simp [hwin]
  · intro el cfg ws we hfind
    unfold parse_granicus_meeting
    simp only [hfind]
  · intro el cfg ws we s hfind hstrp
    unfold parse_granicus_meeting
    simp only [hfind, hstrp]

/-- C2 (witness): a concrete element whose matching node strips to
`"3/15/2025"` yields the record with date `2025-03-15T00:00:00`. -/
theorem claim_C2_witness :
    ∃ r, parse_granicus_meeting
        ⟨["Agenda", " 3/15/2025 "], ["/files/Agenda.pdf"], "<tr>row</tr>"⟩
        ⟨"https://kernco.granicus.com", "/ViewPublished.php?view_id=2",
         "Kern County Board of Supervisors"⟩
        ⟨739320, 0, 0, 0, 0⟩ ⟨739326, 0, 0, 0, 0⟩ = some r ∧
      lookupDict r "date" = some (.str "2025-03-15T00:00:00") :=
  claim_C2_amended.1 _ _ " 3/15/2025 " (by decide) (by decide)

/-- C3 (counterexample): the claim says the window is [Monday 00:00,
Sunday 23:59] and that a Granicus meeting on any day Monday–Sunday
passes.  In the code `week_start = now - timedelta(days=now.weekday())`
keeps the run's time of day: for a run at 2025-03-12 (Wednesday) 10:30,
`week_start` is Monday 2025-03-10 at 10:30 (not 00:00), `week_end` is
Sunday 2025-03-16 at 10:30 (not 23:59), and the Monday meeting
`3/10/2025` — parsed at 00:00 — fails the filter. -/
theorem claim_C3_counterexample :
    week_start ⟨739322, 10, 30, 0, 0⟩ = ⟨739320, 10, 30, 0, 0⟩
    ∧ ¬((week_start ⟨739322, 10, 30, 0, 0⟩).hour = 0 ∧
        (week_start ⟨739322, 10, 30, 0, 0⟩).minute = 0)
    ∧ week_end ⟨739322, 10, 30, 0, 0⟩ = ⟨739326, 10, 30, 0, 0⟩
    ∧ ¬((week_end ⟨739322, 10, 30, 0, 0⟩).hour = 23 ∧
        (week_end ⟨739322, 10, 30, 0, 0⟩).minute = 59)
    ∧ strptimeMDY "3/10/2025" = some ⟨739320, 0, 0, 0, 0⟩
    ∧ pyWeekday ⟨739320, 0, 0, 0, 0⟩ = 0
    ∧ parse_granicus_meeting ⟨["3/10/2025"], [], "row"⟩
        ⟨"https://kernco.granicus.com", "/ViewPublished.php?view_id=2",
         "Kern County Board of Supervisors"⟩
        (week_start ⟨739322, 10, 30, 0, 0⟩) (week_end ⟨739322, 10, 30, 0, 0⟩) = none := by
  refine ⟨rfl, by decide, rfl, by decide, rfl, by decide, rfl⟩

/-- C3 (amended): `week_start` is the Monday of the current week at the
run's time of day (not 00:00) and `week_end` is six days later at the
same time of day (not 23:59); a Granicus meeting (parsed at time 00:00)
dated Tuesday through Sunday of the week always passes the inclusive
filter, while the Monday meeting passes iff the run happens exactly at
midnight. -/
theorem claim_C3_amended (today : DateTime) (hwf : today.wf) :
    (pyWeekday (week_start today) = 0 ∧ pyWeekday (week_end today) = 6)
    ∧ ((week_start today).hour = today.hour ∧ (week_start today).minute = today.minute ∧
       (week_start today).second = today.second ∧ (week_start today).usec = today.usec)
    ∧ (week_end today).ord = (week_start today).ord + 6
    ∧ (∀ k : Int, 1 ≤ k → k ≤ 6 →
        (dtLe (week_start today) ⟨(week_start today).ord + k, 0, 0, 0, 0⟩ &&
          dtLe ⟨(week_start today).ord + k, 0, 0, 0, 0⟩ (week_end today)) = true)
    ∧ ((dtLe (week_start today) ⟨(week_start today).ord, 0, 0, 0, 0⟩ &&
          dtLe ⟨(week_start today).ord, 0, 0, 0, 0⟩ (week_end today)) = true ↔
        (today.hour = 0 ∧ today.minute = 0 ∧ today.second = 0 ∧ today.usec = 0)) := by
  obtain ⟨h1, h2, h3, h4, h5, h6⟩ := hwf
  unfold week_end week_start pyWeekday dtLe dtKey
  dsimp only
  refine ⟨⟨by omega, by omega⟩, ⟨rfl, rfl, rfl, rfl⟩, rfl, ?_, ?_⟩
  · intro k hk1 hk2
    simp only [Bool.and_eq_true, decide_eq_true_eq]
    constructor <;> omega
  · simp only [Bool.and_eq_true, decide_eq_true_eq]
    constructor
    · rintro ⟨ha, hb⟩
      omega
    · rintro ⟨ha, hb, hc, hd⟩
      constructor <;> omega

/-- C3 (witness): for the run at 2025-03-12 (Wednesday) 10:30,
`week_start` falls on a Monday and the Thursday-midnight meeting passes
the filter. -/
theorem claim_C3_witness :
    pyWeekday (week_start ⟨739322, 10, 30, 0, 0⟩) = 0
    ∧ (dtLe (week_start ⟨739322, 10, 30, 0, 0⟩)
          ⟨(week_start ⟨739322, 10, 30, 0, 0⟩).ord + 3, 0, 0, 0, 0⟩ &&
        dtLe ⟨(week_start ⟨739322, 10, 30, 0, 0⟩).ord + 3, 0, 0, 0, 0⟩
          (week_end ⟨739322, 10, 30, 0, 0⟩)) = true := by
  have h := claim_C3_amended ⟨739322, 10, 30, 0, 0⟩ (by decide)
  exact ⟨h.1.1, h.2.2.2.1 3 (by norm_num) (by norm_num)⟩

/-- C4 (confirmed): for every anchor whose href matches "MeetingDetail"
case-insensitively, the Legistar parser emits a record whose title is the
link's stripped visible text, whose agenda_url is base_url ++ href, and
whose date is `isoformat now` — the current wall-clock time, not anything
derived from the input; and the result is identical for any week-window
arguments, so Legistar records reach the caller unfiltered. -/
theorem claim_C4_legistar (el : LegistarLink) (cfg : SourceConfig)
    (ws we ws' we' now : DateTime)
    (hhref : containsCI el.href "meetingdetail" = true) :
    parse_legistar_meeting el cfg ws we now =
      some [("agency", .str cfg.name),
            ("date", .str (isoformat now)),
            ("type", .str "Regular Meeting"),
            ("agenda_url", .str (cfg.base_url ++ el.href)),
            ("title", .str (pyStrip el.text)),
            ("source", .str "legistar")]
    ∧ parse_legistar_meeting el cfg ws we now = parse_legistar_meeting el cfg ws' we' now :=
  ⟨rfl, rfl⟩

/-- C4 (witness): the anchor `/MeetingDetail.aspx?ID=123` with text
"City Council Regular Meeting" on the Bakersfield Legistar source. -/
theorem claim_C4_witness :
    parse_legistar_meeting
      ⟨"/MeetingDetail.aspx?ID=123", "City Council Regular Meeting"⟩
      ⟨"https://bakersfield.legistar.com", "/Calendar.aspx", "Bakersfield City Council"⟩
      ⟨739320, 0, 0, 0, 0⟩ ⟨739326, 0, 0, 0, 0⟩ ⟨739901, 9, 15, 0, 0⟩ =
    some [("agency", .str "Bakersfield City Council"),
          ("date", .str "2026-10-12T09:15:00"),
          ("type", .str "Regular Meeting"),
          ("agenda_url", .str "https://bakersfield.legistar.com/MeetingDetail.aspx?ID=123"),
          ("title", .str "City Council Regular Meeting"),
          ("source", .str "legistar")] :=
  (claim_C4_legistar _ _ _ _ ⟨1, 0, 0, 0, 0⟩ ⟨2, 0, 0, 0, 0⟩ _ (by decide)).1

/-- C5 (confirmed): a configured source whose fetch or parse raises
contributes zero records while all other sources' records are still
returned in order, the total length is the sum of the successful sources'
record counts, and the aggregator is a total function — it never raises. -/
theorem claim_C5_aggregator :
    (∀ (pre post : List (Except PyErr (List Dict))) (e : PyErr),
      scrape_weekly_meetings (pre ++ .error e :: post) =
        scrape_weekly_meetings (pre ++ post))
    ∧ (∀ results, scrape_weekly_meetings results =
        (results.filterMap Except.toOption).flatten)
    ∧ (∀ results, (scrape_weekly_meetings results).length =
        (results.map (fun r => match r with | .ok ms => ms.length | .error _ => 0)).sum) := by
  refine ⟨?_, ?_, ?_⟩
  · intro pre post e
    induction pre with
    | nil => rfl
    | cons r pre ih => cases r <;> simp [scrape_weekly_meetings, ih]
  · intro results
    induction results with
    | nil => rfl
    | cons r rs ih => cases r <;> simp [scrape_weekly_meetings, ih, Except.toOption]
  · intro results
    induction results with
    | nil => rfl
    | cons r rs ih => cases r <;> simp [scrape_weekly_meetings, ih]

/-- C6 (counterexample): the claim's parenthetical "each returns a string
on every input" fails: both summarizers interpolate `meeting['agency']`
and `meeting['date']` into the prompt before the guarded remote call, so
on the empty dict they raise `KeyError` even though the remote client
would have answered. -/
theorem claim_C6_counterexample :
    summarize_agenda (fun _ => .ok "Looks good.") [] = .error .keyError
    ∧ summarize_minutes (fun _ => .ok "Looks good.") [] = .error .keyError :=
  ⟨rfl, rfl⟩

/-- C6 (amended): whenever the remote call raises and the meeting dict has
its `agency` and `date` keys (so that prompt construction succeeds),
`_summarize_agenda` returns exactly
"Summary unavailable - please check the agenda directly." and
`_summarize_minutes` returns exactly "Summary unavailable."; the remote
error itself never propagates, but a meeting missing those keys raises
`KeyError` during prompt construction before the guarded call. -/
theorem claim_C6_amended (client : String → Except Unit String) (m : Dict)
    (hclient : ∀ p, client p = .error ())
    (ha : (lookupDict m "agency").isSome = true)
    (hd : (lookupDict m "date").isSome = true) :
    summarize_agenda client m =
      .ok "Summary unavailable - please check the agenda directly."
    ∧ summarize_minutes client m = .ok "Summary unavailable." := by
  obtain ⟨va, hva⟩ := Option.isSome_iff_exists.mp ha
  obtain ⟨vd, hvd⟩ := Option.isSome_iff_exists.mp hd
  unfold summarize_agenda summarize_minutes getItem
  simp only [hva, hvd, ok_bind, hclient]
  exact ⟨rfl, rfl⟩

/-- C6 (witness): a concrete meeting with both keys and an always-raising
client yields exactly the two fallback strings. -/
theorem claim_C6_witness :
    summarize_agenda (fun _ => .error ())
      [("agency", .str "Kern County Board of Supervisors"),
       ("date", .str "2025-03-15T00:00:00")] =
      .ok "Summary unavailable - please check the agenda directly."
    ∧ summarize_minutes (fun _ => .error ())
      [("agency", .str "Kern County Board of Supervisors"),
       ("date", .str "2025-03-15T00:00:00")] = .ok "Summary unavailable." :=
  claim_C6_amended _ _ (fun _ => rfl) (by decide) (by decide)

/-- C7 (counterexample): the synthetic theme's description is the
response after `.strip()`, not the raw response verbatim: for the
non-JSON response "oops " the description is "oops". -/
theorem claim_C7_counterexample :
    jsonLoadsPy "oops " = none
    ∧ find_common_themes (fun _ => .ok "oops ") [] =
        .ok (.jarr [.jobj [("theme", .jstr "Multi-Agency Coordination"),
                           ("description", .jstr "oops")]])
    ∧ "oops" ≠ "oops " :=
  ⟨rfl, rfl, by decide⟩

/-- C7 (amended): when every meeting has its `agency` key (so the content
join succeeds) and the response body — after the code's `.strip()` — is
not valid JSON, theme extraction returns exactly one synthetic theme
whose description is the stripped response text; and when the remote call
itself raises, theme extraction returns the empty list. -/
theorem claim_C7_amended (client : String → Except Unit String)
    (ms : List Dict) (resp : String)
    (hkeys : ∀ m ∈ ms, (lookupDict m "agency").isSome) :
    ((∀ p, client p = .ok resp) → jsonLoadsPy (pyStrip resp) = none →
      find_common_themes client ms =
        .ok (.jarr [.jobj [("theme", .jstr "Multi-Agency Coordination"),
                           ("description", .jstr (pyStrip resp))]]))
    ∧ ((∀ p, client p = .error ()) → find_common_themes client ms = .ok (.jarr [])) := by
  have h := find_common_themes_cases client ms hkeys
  exact ⟨fun hc hj => h.2.1 resp hc hj, h.1⟩

/-- C7 (witness): on a meeting list with agency keys, the non-JSON
response "not json" becomes the single synthetic theme, and an
always-raising client yields the empty theme list. -/
theorem claim_C7_witness :
    find_common_themes (fun _ => .ok "not json") [[("agency", .str "A")]] =
      .ok (.jarr [.jobj [("theme", .jstr "Multi-Agency Coordination"),
                         ("description", .jstr "not json")]])
    ∧ find_common_themes (fun _ => .error ()) [[("agency", .str "A")]] = .ok (.jarr []) :=
  ⟨(claim_C7_amended _ _ "not json" (by decide)).1 (fun _ => rfl) rfl,
   (claim_C7_amended _ _ "" (by decide)).2 (fun _ => rfl)⟩

/-- C8 (counterexample): a record emitted by the Legistar parser has no
`raw_content` field at all (it carries `title` instead), refuting the
claim that every record of either parser contains a `raw_content`
string. -/
theorem claim_C8_counterexample :
    parse_legistar_meeting
      ⟨"/MeetingDetail.aspx?ID=456", "Planning Meeting"⟩
      ⟨"https://bakersfield.legistar.com", "/Calendar.aspx", "Bakersfield City Council"⟩
      ⟨739320, 0, 0, 0, 0⟩ ⟨739326, 0, 0, 0, 0⟩ ⟨739901, 9, 15, 0, 0⟩ =
      some [("agency", .str "Bakersfield City Council"),
            ("date", .str "2026-10-12T09:15:00"),
            ("type", .str "Regular Meeting"),
            ("agenda_url", .str "https://bakersfield.legistar.com/MeetingDetail.aspx?ID=456"),
            ("title", .str "Planning Meeting"),
            ("source", .str "legistar")]
    ∧ lookupDict
        [("agency", .str "Bakersfield City Council"),
         ("date", .str "2026-10-12T09:15:00"),
         ("type", .str "Regular Meeting"),
         ("agenda_url", .str "https://bakersfield.legistar.com/MeetingDetail.aspx?ID=456"),
         ("title", .str "Planning Meeting"),
         ("source", .str "legistar")] "raw_content" = none :=
  ⟨rfl, rfl⟩

/-- C8 (amended): every Granicus record has an agency string, an ISO-8601
timestamp date, type "Regular Meeting", an agenda_url field (a string or
None), the serialized element as `raw_content`, and source "granicus";
every Legistar record has an agency string, an ISO-8601 timestamp date,
type "Regular Meeting", an agenda_url string, a `title` string, source
"legistar" — and no `raw_content` field. -/
theorem claim_C8_amended :
    (∀ (el : GranicusElement) (cfg : SourceConfig) (ws we : DateTime) (r : Dict),
      parse_granicus_meeting el cfg ws we = some r →
      lookupDict r "agency" = some (.str cfg.name)
      ∧ (∃ ds, lookupDict r "date" = some (.str ds) ∧ isIsoTimestamp ds = true)
      ∧ lookupDict r "type" = some (.str "Regular Meeting")
      ∧ (∃ u, lookupDict r "agenda_url" = some u)
      ∧ lookupDict r "raw_content" = some (.str el.markup)
      ∧ lookupDict r "source" = some (.str "granicus"))
    ∧ (∀ (el : LegistarLink) (cfg : SourceConfig) (ws we now : DateTime) (r : Dict),
      now.wf → parse_legistar_meeting el cfg ws we now = some r →
      lookupDict r "agency" = some (.str cfg.name)
      ∧ lookupDict r "date" = some (.str (isoformat now))
      ∧ isIsoTimestamp (isoformat now) = true
      ∧ lookupDict r "type" = some (.str "Regular Meeting")
      ∧ lookupDict r "agenda_url" = some (.str (cfg.base_url ++ el.href))
      ∧ lookupDict r "title" = some (.str (pyStrip el.text))
      ∧ lookupDict r "source" = some (.str "legistar")
      ∧ lookupDict r "raw_content" = none) := by
  constructor
  · intro el cfg ws we r h
    unfold parse_granicus_meeting at h
    rcases hfind : el.texts.find? dateSearch with _ | s
    · simp only [hfind] at h
      exact Option.noConfusion h
    rcases hstrp : strptimeMDY (pyStrip s) with _ | dt
    · simp only [hfind, hstrp] at h
      exact Option.noConfusion h
    simp only [hfind, hstrp] at h
    split at h
    · cases h
      refine ⟨rfl, ⟨isoformat dt, rfl, ?_⟩, rfl, ⟨_, rfl⟩, rfl, rfl⟩
      exact isoformat_iso dt (strptimeMDY_wf _ _ hstrp)
    · cases h
  · intro el cfg ws we now r hwf h
    cases h
    exact ⟨rfl, rfl, isoformat_iso now hwf, rfl, rfl, rfl, rfl, rfl⟩

/-- C8 (witness): the granicus part on a concrete in-window element and
the legistar part on a concrete anchor, with a well-formed `now`. -/
theorem claim_C8_witness :
    (∃ ds, lookupDict
        [("agency", .str "Kern County Planning Commission"),
         ("date", .str (isoformat ⟨739325, 0, 0, 0, 0⟩)),
         ("type", .str "Regular Meeting"),
         ("agenda_url", PyVal.pyNone),
         ("raw_content", .str "<div>row</div>"),
         ("source", .str "granicus")] "date" = some (.str ds) ∧ isIsoTimestamp ds = true)
    ∧ lookupDict
        [("agency", .str "Bakersfield City Council"),
         ("date", .str (isoformat ⟨739901, 9, 15, 0, 0⟩)),
         ("type", .str "Regular Meeting"),
         ("agenda_url", .str ("https://bakersfield.legistar.com" ++ "/MeetingDetail.aspx?ID=456")),
         ("title", .str (pyStrip "Planning Meeting")),
         ("source", .str "legistar")] "raw_content" = none := by
  have hg := claim_C8_amended.1
    ⟨["3/15/2025"], [], "<div>row</div>"⟩
    ⟨"https://kernco.granicus.com", "/ViewPublished.php?view_id=3",
     "Kern County Planning Commission"⟩
    ⟨739320, 0, 0, 0, 0⟩ ⟨739326, 0, 0, 0, 0⟩ _ rfl
  have hl := claim_C8_amended.2
    ⟨"/MeetingDetail.aspx?ID=456", "Planning Meeting"⟩
    ⟨"https://bakersfield.legistar.com", "/Calendar.aspx", "Bakersfield City Council"⟩
    ⟨739320, 0, 0, 0, 0⟩ ⟨739326, 0, 0, 0, 0⟩ ⟨739901, 9, 15, 0, 0⟩ _ (by decide) rfl
  exact ⟨hg.2.1, hl.2.2.2.2.2.2.2⟩

/-- C9 (counterexample): on the empty input the remote theme call is
still made; a client that answers with a non-JSON string makes `themes` a
one-element synthetic list, refuting the claim that the themes list is
always empty for empty input. -/
theorem claim_C9_counterexample :
    process_meetings (fun _ => .ok "hello") [] ⟨739901, 12, 0, 0, 0⟩ =
      .ok ⟨[], [], .jarr [.jobj [("theme", .jstr "Multi-Agency Coordination"),
                                 ("description", .jstr "hello")]], 0⟩
    ∧ JsonVal.jarr [.jobj [("theme", .jstr "Multi-Agency Coordination"),
                           ("description", .jstr "hello")]] ≠ .jarr [] :=
  ⟨rfl, by simp⟩

/-- C9 (amended): on the empty input, `process_meetings` never raises and
returns `total_meetings = 0` with empty upcoming and recent lists; the
themes field is whatever theme extraction produces for the empty-content
prompt — in particular the empty list when the remote call raises. -/
theorem claim_C9_amended (client : String → Except Unit String) (now : DateTime) :
    (∃ th, process_meetings client [] now = .ok ⟨[], [], th, 0⟩
      ∧ find_common_themes client [] = .ok th)
    ∧ ((∀ p, client p = .error ()) →
        process_meetings client [] now = .ok ⟨[], [], .jarr [], 0⟩) := by
  have h := find_common_themes_cases client [] (by intro m hm; cases hm)
  obtain ⟨v, hv⟩ := h.2.2.2
  constructor
  · refine ⟨v, ?_, hv⟩
    unfold process_meetings
    rw [hv]
    rfl
  · intro hc
    have h0 := h.1 hc
    unfold process_meetings
    rw [h0]
    rfl

/-- C9 (witness): with an always-raising client the empty input yields
the all-empty bundle with `total_meetings = 0`. -/
theorem claim_C9_witness :
    process_meetings (fun _ => .error ()) [] ⟨739901, 12, 0, 0, 0⟩ =
      .ok ⟨[], [], .jarr [], 0⟩ :=
  (claim_C9_amended _ _).2 (fun _ => rfl)

/-- C10 (counterexample): `process_meetings` is claimed never to raise,
but `_find_common_themes` reads `m['agency']` in its content join outside
any `try`: on a record without the `agency` key the whole call raises
`KeyError` (even though the classification and per-meeting processing
steps absorbed the same missing key). -/
theorem claim_C10_counterexample :
    process_meetings (fun _ => .error ()) [[]] ⟨739901, 12, 0, 0, 0⟩ =
      .error .keyError :=
  rfl

/-- C10 (amended): whenever every record has its `agency` key,
`process_meetings` returns a bundle with `total_meetings` equal to the
raw input length and `len(upcoming) + len(recent) ≤ total`, the
inequality being strict when an individual meeting's summarizing or
re-packaging raises (e.g. a record missing the `date` key is silently
dropped but still counted); a record missing `agency`, however, makes
`process_meetings` itself raise from the theme-extraction join. -/
theorem claim_C10_amended (client : String → Except Unit String)
    (ms : List Dict) (now : DateTime)
    (hkeys : ∀ m ∈ ms, (lookupDict m "agency").isSome) :
    (∃ b, process_meetings client ms now = .ok b
      ∧ b.total_meetings = ms.length
      ∧ b.upcoming_meetings.length + b.recent_minutes.length ≤ ms.length)
    ∧ process_meetings (fun _ => .error ())
        [[("agency", PyVal.str "A")]] ⟨739901, 12, 0, 0, 0⟩ =
      .ok ⟨[], [], .jarr [], 1⟩ := by
  constructor
  · obtain ⟨b, hb, hup, hrec, -, htot⟩ := process_meetings_ok client ms now hkeys
    refine ⟨b, hb, htot, ?_⟩
    have h1 : b.upcoming_meetings.length ≤
        (ms.filter (fun m => is_upcoming m now)).length := by
      rw [hup]
      unfold process_upcoming_meetings
      exact List.length_filterMap_le _ _
    have h2 : b.recent_minutes.length ≤
        (ms.filter (fun m => !is_upcoming m now)).length := by
      rw [hrec]
      unfold process_recent_meetings
      exact List.length_filterMap_le _ _
    have h3 := List.length_eq_length_filter_add (l := ms) (fun m => is_upcoming m now)
    omega
  · rfl

/-- C10 (witness): a two-record list with agency keys, one record lacking
`date`, processed with an always-raising client: the bundle exists with
the stated count invariants. -/
theorem claim_C10_witness :
    ∃ b, process_meetings (fun _ => .error ())
        [[("agency", .str "A"), ("date", .str "2020-01-01T00:00:00")],
         [("agency", .str "B")]] ⟨739901, 12, 0, 0, 0⟩ = .ok b
      ∧ b.total_meetings = 2
      ∧ b.upcoming_meetings.length + b.recent_minutes.length ≤ 2 :=
  (claim_C10_amended _ _ _ (by decide)).1

end KernGov
